import Mathlib

/-!
Verification of the foodvoice repository's core logic: the chat API
handler's response cleaning / JSON extraction (src/pages/api/chat.ts),
the client-side action reconciler `executeAIActions` and the menu filter
pipeline (src/pages/index.tsx), and the transcription endpoint's outcome
handling (src/pages/api/transcribe.ts).

Machine strings are modelled as Lean `String`; JSON values as an
inductive `Json` with a fuel-based executable parser mirroring the
semantics of JavaScript's `JSON.parse` on the fragment the code relies
on.  JSON numbers are kept as their source lexeme: no claim depends on
numeric arithmetic, only on structural decoding, truthiness and
zero-ness, which the lexeme determines.
-/

set_option maxRecDepth 100000
set_option maxHeartbeats 2000000

/-- A JSON value as produced by `JSON.parse`.  Object fields are kept in
source order; duplicate keys are resolved on access (last assignment
wins), matching JavaScript object semantics. -/
inductive Json where
  | null
  | bool (b : Bool)
  | num (lexeme : String)
  | str (s : String)
  | arr (elems : List Json)
  | obj (fields : List (String × Json))

/-- The character `\x7b` (opening curly brace). -/
def lbrace : Char := Char.ofNat 123

/-- The character `\x7d` (closing curly brace). -/
def rbrace : Char := Char.ofNat 125

/-- JSON insignificant whitespace (RFC 8259): space, tab, LF, CR. -/
def isJsonWs (c : Char) : Bool :=
  c == ' ' || c == '\t' || c == '\n' || c == '\r'

/-- Skip JSON whitespace at the head of the character stream. -/
def skipWs : List Char → List Char
  | c :: cs => if isJsonWs c then skipWs cs else c :: cs
  | [] => []

/-- Hexadecimal digit value, for `\uXXXX` string escapes. -/
def hexVal (c : Char) : Option Nat :=
  if '0' ≤ c ∧ c ≤ '9' then some (c.toNat - '0'.toNat)
  else if 'a' ≤ c ∧ c ≤ 'f' then some (c.toNat - 'a'.toNat + 10)
  else if 'A' ≤ c ∧ c ≤ 'F' then some (c.toNat - 'A'.toNat + 10)
  else none

/-- Parse the body of a JSON string literal (the opening quote already
consumed), returning the decoded string and the rest of the input.
Raw control characters are rejected, as `JSON.parse` rejects them. -/
def parseStrBody : List Char → List Char → Option (String × List Char)
  | [], _ => none
  | c :: rest, acc =>
    if c = '"' then some (String.mk acc.reverse, rest)
    else if c = '\\' then
      match rest with
      | [] => none
      | e :: r2 =>
        if e = '"' then parseStrBody r2 ('"' :: acc)
        else if e = '\\' then parseStrBody r2 ('\\' :: acc)
        else if e = '/' then parseStrBody r2 ('/' :: acc)
        else if e = 'b' then parseStrBody r2 (Char.ofNat 8 :: acc)
        else if e = 'f' then parseStrBody r2 (Char.ofNat 12 :: acc)
        else if e = 'n' then parseStrBody r2 ('\n' :: acc)
        else if e = 'r' then parseStrBody r2 ('\r' :: acc)
        else if e = 't' then parseStrBody r2 ('\t' :: acc)
        else if e = 'u' then
          match r2 with
          | h1 :: h2 :: h3 :: h4 :: r3 =>
            match hexVal h1, hexVal h2, hexVal h3, hexVal h4 with
            | some a, some b, some c, some d =>
                parseStrBody r3 (Char.ofNat (((a * 16 + b) * 16 + c) * 16 + d) :: acc)
            | _, _, _, _ => none
          | _ => none
        else none
    else if c.toNat < 32 then none
    else parseStrBody rest (c :: acc)

/-- Parse a JSON number per the RFC 8259 grammar, keeping the lexeme. -/
def parseNum (cs : List Char) : Option (Json × List Char) :=
  let sgn : List Char := if cs.head? = some '-' then ['-'] else []
  let cs1 := if cs.head? = some '-' then cs.tail else cs
  match cs1 with
  | [] => none
  | c :: rest =>
    if !c.isDigit then none else
    let ip : List Char := if c = '0' then [c] else c :: rest.takeWhile Char.isDigit
    let r1 : List Char := if c = '0' then rest else rest.dropWhile Char.isDigit
    let fracRes : Option (List Char × List Char) :=
      if r1.head? = some '.' then
        let ds := r1.tail.takeWhile Char.isDigit
        if ds = [] then none else some ('.' :: ds, r1.tail.dropWhile Char.isDigit)
      else some ([], r1)
    match fracRes with
    | none => none
    | some (fp, r2) =>
      match r2 with
      | e :: r3 =>
        if e = 'e' ∨ e = 'E' then
          let sg2 : List Char :=
            if r3.head? = some '+' ∨ r3.head? = some '-' then r3.take 1 else []
          let r4 : List Char :=
            if r3.head? = some '+' ∨ r3.head? = some '-' then r3.tail else r3
          let ds := r4.takeWhile Char.isDigit
          if ds = [] then none
          else some (.num (String.mk (sgn ++ ip ++ fp ++ [e] ++ sg2 ++ ds)), r4.dropWhile Char.isDigit)
        else some (.num (String.mk (sgn ++ ip ++ fp)), r2)
      | [] => some (.num (String.mk (sgn ++ ip ++ fp)), [])

/-- Parse a comma-separated list of array elements, the terminating `]`
included; `pv` parses one value. -/
def parseElems (pv : List Char → Option (Json × List Char)) :
    Nat → List Char → Option (List Json × List Char)
  | 0, _ => none
  | fuel + 1, cs =>
    match pv cs with
    | some (v, r1) =>
      match skipWs r1 with
      | ',' :: r2 => (parseElems pv fuel r2).map (fun p => (v :: p.1, p.2))
      | ']' :: r2 => some ([v], r2)
      | _ => none
    | none => none

/-- Parse a comma-separated list of object members, the terminating
closing brace included; `pv` parses one value. -/
def parseMembers (pv : List Char → Option (Json × List Char)) :
    Nat → List Char → Option (List (String × Json) × List Char)
  | 0, _ => none
  | fuel + 1, cs =>
    match skipWs cs with
    | '"' :: rest =>
      match parseStrBody rest [] with
      | some (key, r1) =>
        match skipWs r1 with
        | ':' :: r2 =>
          match pv r2 with
          | some (v, r3) =>
            match skipWs r3 with
            | ',' :: r4 => (parseMembers pv fuel r4).map (fun p => ((key, v) :: p.1, p.2))
            | c :: r4 => if c = rbrace then some ([(key, v)], r4) else none
            | [] => none
          | none => none
        | _ => none
      | none => none
    | _ => none

/-- Parse one JSON value.  `fuel` bounds the recursion depth; callers
supply more fuel than the input length, which always suffices. -/
def parseVal : Nat → List Char → Option (Json × List Char)
  | 0, _ => none
  | fuel + 1, cs =>
    match skipWs cs with
    | [] => none
    | 'n' :: 'u' :: 'l' :: 'l' :: rest => some (.null, rest)
    | 't' :: 'r' :: 'u' :: 'e' :: rest => some (.bool true, rest)
    | 'f' :: 'a' :: 'l' :: 's' :: 'e' :: rest => some (.bool false, rest)
    | '"' :: rest => (parseStrBody rest []).map (fun p => (.str p.1, p.2))
    | '[' :: rest =>
      match skipWs rest with
      | ']' :: r2 => some (.arr [], r2)
      | r2 => (parseElems (parseVal fuel) fuel r2).map (fun p => (.arr p.1, p.2))
    | c :: rest =>
      if c = lbrace then
        match skipWs rest with
        | c2 :: r2 =>
          if c2 = rbrace then some (.obj [], r2)
          else (parseMembers (parseVal fuel) fuel (c2 :: r2)).map (fun p => (.obj p.1, p.2))
        | [] => none
      else if c = '-' ∨ c.isDigit then parseNum (c :: rest)
      else none

/-- The semantics of `JSON.parse`: parse one value and require that only
whitespace follows; any violation is a thrown `SyntaxError`, modelled as
`none`. -/
def jsonParse (s : String) : Option Json :=
  match parseVal (s.toList.length + 1) s.toList with
  | some (v, rest) => if skipWs rest = [] then some v else none
  | none => none

/-- JavaScript property access `o[k]` on a parsed JSON value: `none` is
`undefined` (non-object receiver or absent key); with duplicate keys the
last assignment wins. -/
def Json.getField : Json → String → Option Json
  | .obj fields, k => fields.foldl (fun acc kv => if kv.1 = k then some kv.2 else acc) none
  | _, _ => none

/-- Whether a JSON number lexeme denotes a nonzero value: true exactly
when its mantissa (the part before any exponent) has a nonzero digit. -/
def numLexNonzero (lex : String) : Bool :=
  (lex.toList.takeWhile (fun c => c ≠ 'e' ∧ c ≠ 'E')).any
    (fun c => '1' ≤ c ∧ c ≤ '9')

/-- JavaScript truthiness of a parsed JSON value. -/
def jsTruthy : Json → Bool
  | .null => false
  | .bool b => b
  | .num lex => numLexNonzero lex
  | .str s => s != ""
  | .arr _ => true
  | .obj _ => true

/-- JavaScript `\s`-style whitespace restricted to ASCII: space, tab,
LF, CR, vertical tab, form feed. -/
def isJsWs (c : Char) : Bool :=
  c == ' ' || c == '\t' || c == '\n' || c == '\r' ||
  c == Char.ofNat 11 || c == Char.ofNat 12

/-- Drop leading whitespace (the effect of a leading greedy `\s*`). -/
def dropWsLeft (s : String) : String :=
  String.mk (s.toList.dropWhile isJsWs)

/-- Drop trailing whitespace (the effect of a trailing greedy `\s*`). -/
def dropWsRight (s : String) : String :=
  String.mk ((s.toList.reverse.dropWhile isJsWs).reverse)

/-- `String.prototype.trim()` on the ASCII fragment. -/
def jsTrim (s : String) : String :=
  dropWsRight (dropWsLeft s)

/-- Character-list prefix test (the semantics of `String.startsWith`,
stated on the character lists so that it evaluates by reduction). -/
def startsWithL : List Char → List Char → Bool
  | _, [] => true
  | [], _ :: _ => false
  | c :: cs, p :: ps => c == p && startsWithL cs ps

/-- `s.replace(/^LIT\s*/, '')` for a literal anchored pattern `LIT`:
when `s` starts with `lit`, remove it and the following whitespace run;
otherwise leave `s` unchanged. -/
def stripLeadingLit (lit : String) (s : String) : String :=
  if startsWithL s.toList lit.toList then
    String.mk ((s.toList.drop lit.toList.length).dropWhile isJsWs)
  else s

/-- `s.replace(/\s*```$/, '')`: remove a trailing code fence together
with the whitespace run just before it, when present. -/
def stripTrailingTicks (s : String) : String :=
  if startsWithL s.toList.reverse ['`', '`', '`'] then
    String.mk (((s.toList.reverse.drop 3).dropWhile isJsWs).reverse)
  else s

/-- `s.replace(/^\s*```\s*/, '')`: remove a leading whitespace run, a
code fence, and the whitespace after it; on no match (no fence after
the leading whitespace) the string is unchanged, leading whitespace
included. -/
def stripLeadingTicksWs (s : String) : String :=
  let t := s.toList.dropWhile isJsWs
  if startsWithL t ['`', '`', '`'] then String.mk ((t.drop 3).dropWhile isJsWs)
  else s

/-- Index of the first occurrence of `c` (JavaScript `indexOf`, with
`none` for `-1`). -/
def idxOfFrom (c : Char) : List Char → Option Nat
  | [] => none
  | x :: xs => if x == c then some 0 else (idxOfFrom c xs).map (· + 1)

/-- The brace-span heuristic of the chat handler: locate the first
opening brace and the last closing brace; when both exist and the first
precedes the last, slice to exactly that span (`substring(first,
last + 1)`); otherwise leave the text unchanged. -/
def sliceBraces (s : String) : String :=
  let cs := s.toList
  match idxOfFrom lbrace cs, idxOfFrom rbrace cs.reverse with
  | some i, some jr =>
    let j := cs.length - 1 - jr
    if i < j then String.mk ((cs.drop i).take (j + 1 - i)) else s
  | _, _ => s

/-- The chat handler's response-cleaning pipeline, in source order:
trim, strip a leading fenced `json` marker, strip a trailing fence,
strip bare leading `json` and quote-prefixed `json` tokens, strip a
leading fence with surrounding whitespace, then the brace-span slice. -/
def cleanResponse (raw : String) : String :=
  sliceBraces (stripLeadingTicksWs (stripLeadingLit "\"json"
    (stripLeadingLit "json" (stripTrailingTicks
      (stripLeadingLit "```json" (jsTrim raw))))))

/-- The actions object assembled by the chat handler for the client.
Fields hold the raw JSON values copied from the parsed response.  The
client-side interface also declares a `showItems` key, which the
handler never assigns; it is carried here so that absence is a provable
property rather than a modelling artifact. -/
structure ChatActionsOut where
  filterCategory : Option Json := none
  setFilters : Option Json := none
  customFilters : Option Json := none
  recommendedItems : Option Json := none
  showItems : Option Json := none

/-- The value of a field of the parsed `actions` object when it passes
the handler's truthiness guard, `none` otherwise. -/
def truthyField (o : Json) (k : String) : Option Json :=
  match Json.getField o k with
  | some v => if jsTruthy v then some v else none
  | none => none

/-- The field-by-field copy the chat handler performs from the parsed
response's `actions` object: category becomes `filterCategory`, filters
becomes `setFilters`, `customFilters` and `recommendedItems` are copied
under their own names, each guarded by JavaScript truthiness; the
`reasoning` field is only logged. -/
def buildActs (parsed : Json) : ChatActionsOut :=
  match Json.getField parsed "actions" with
  | some av =>
    if jsTruthy av then
      { filterCategory := truthyField av "category"
        setFilters := truthyField av "filters"
        customFilters := truthyField av "customFilters"
        recommendedItems := truthyField av "recommendedItems" }
    else {}
  | none => {}

/-- Whether no key was assigned on the actions object
(`Object.keys(actions).length` is zero): only the four copied fields
can ever be assigned. -/
def isEmptyActs (a : ChatActionsOut) : Bool :=
  a.filterCategory.isNone && a.setFilters.isNone &&
  a.customFilters.isNone && a.recommendedItems.isNone

/-- The JSON body of the chat handler's 200 response: the `response`
field (absent keys are dropped by serialization, modelled as `none`)
and the optional `actions` object. -/
structure ChatResult where
  response : Option Json
  actions : Option ChatActionsOut

/-- A response sent by the chat handler's parsing stage: the 200 JSON
body, or the 500 internal error produced by the outer catch. -/
inductive ChatReply where
  | ok (body : ChatResult)
  | serverError (error : String)

/-- Whether a parsed JSON value is the JSON `null` — the one
decode-success value on which a JavaScript property access throws a
`TypeError`. -/
def Json.isNull : Json → Bool
  | .null => true
  | _ => false

/-- The 200 body assembled on a decode success that survived the
`parsedResponse.actions` access: the `response` field forwarded
verbatim (absent keys are dropped by serialization, modelled as
`none`) and the copied actions, sent only when at least one key was
assigned. -/
def successBody (parsed : Json) : ChatResult :=
  { response := Json.getField parsed "response"
    actions := if isEmptyActs (buildActs parsed) then none
               else some (buildActs parsed) }

/-- The chat handler's parsing stage (src/pages/api/chat.ts), from the
raw model text to the HTTP response: clean, decode with `JSON.parse`
inside a try/catch; a thrown decode error returns the 200 fallback
body whose `response` is the entire original raw text and whose
`actions` is `undefined`.  The action-building code runs OUTSIDE that
try/catch: when the decoded value is `null`, the property access
`parsedResponse.actions` throws a `TypeError` and the outer catch
returns the 500 internal error; on every other decoded value the
property accesses are safe and the handler returns the 200 success
body. -/
def chatHandler (raw : String) : ChatReply :=
  match jsonParse (cleanResponse raw) with
  | none => .ok { response := some (Json.str raw), actions := none }
  | some parsed =>
    if parsed.isNull then .serverError "Erreur interne du serveur"
    else .ok (successBody parsed)

/-- The total record of display filters held in component state
(`activeFilters` in src/pages/index.tsx), all defaulting to false. -/
structure FilterSet where
  vegetarian : Bool
  vegan : Bool
  halal : Bool
  noAllergens : Bool
  popular : Bool
  noCheese : Bool
deriving DecidableEq

/-- The all-false `FilterSet` the reconciler resets to. -/
def allFalseFilters : FilterSet :=
  { vegetarian := false, vegan := false, halal := false
    noAllergens := false, popular := false, noCheese := false }

/-- The typed shape of `actions.setFilters` received by the client: a
subset of the filter keys, absent keys meaning "unset". -/
structure FilterUpdate where
  vegetarian : Option Bool := none
  vegan : Option Bool := none
  halal : Option Bool := none
  noAllergens : Option Bool := none
  popular : Option Bool := none
  noCheese : Option Bool := none
deriving DecidableEq

/-- The object spread `\x7b...prev, ...update\x7d`: keys present in the
update win, absent keys keep the previous value. -/
def mergeFilters (prev : FilterSet) (u : FilterUpdate) : FilterSet :=
  { vegetarian := u.vegetarian.getD prev.vegetarian
    vegan := u.vegan.getD prev.vegan
    halal := u.halal.getD prev.halal
    noAllergens := u.noAllergens.getD prev.noAllergens
    popular := u.popular.getD prev.popular
    noCheese := u.noCheese.getD prev.noCheese }

/-- The typed shape of `actions.customFilters` received by the client. -/
structure CustomFilters where
  withCheese : Option Bool := none
  withMeat : Option Bool := none
  spicy : Option Bool := none
deriving DecidableEq

/-- The actions payload as typed on the client
(`ChatResponse['actions']` consumed by `executeAIActions`). -/
structure ClientActions where
  filterCategory : Option String := none
  setFilters : Option FilterUpdate := none
  customFilters : Option CustomFilters := none
  recommendedItems : Option (List Int) := none
  showItems : Option (List Int) := none
deriving DecidableEq

/-- The UI state the reconciler touches: the current category selector
and the total `FilterSet`. -/
structure UIState where
  currentCategory : String
  activeFilters : FilterSet
deriving DecidableEq

/-- `executeAIActions` (src/pages/index.tsx): priority 1 sets the
category when `filterCategory` is truthy (an empty string is falsy and
ignored); priority 2 resets the whole `FilterSet` and schedules a merge
of the received keys in a `setTimeout` callback, modelled as the final
step of the sequential turn; priority 3 handles `customFilters`, whose
only wired key is `withCheese` (reset the filters, force category
"all"); the `recommendedItems` and `showItems` branches only log. -/
def executeAIActions (s : UIState) (a : ClientActions) : UIState :=
  let s1 := match a.filterCategory with
    | some c => if c != "" then { s with currentCategory := c } else s
    | none => s
  let s2 := match a.setFilters with
    | some _ => { s1 with activeFilters := allFalseFilters }
    | none => s1
  let s3 := match a.customFilters with
    | some cf =>
      if cf.withCheese == some true then
        { s2 with activeFilters := allFalseFilters, currentCategory := "all" }
      else s2
    | none => s2
  match a.setFilters with
  | some u => { s3 with activeFilters := mergeFilters s3.activeFilters u }
  | none => s3

/-- A menu item (the `MenuItem` interface of src/pages/index.tsx). -/
structure MenuItem where
  id : Int
  name : String
  price : Rat
  image : String
  description : String
  ingredients : List String
  allergens : List String
  tags : List String
  vegetarian : Bool
  vegan : Bool
  halal : Bool
  popular : Bool
  spicy : Bool
  preparationTime : String
  cheeseRemovable : Option Bool := none
deriving DecidableEq

/-- The `menu` mapping of the catalog: category key to ordered item
sequence, in catalog iteration (insertion) order. -/
abbrev Menu := List (String × List MenuItem)

/-- The filter `useEffect` of src/pages/index.tsx: start from the
concatenation of every category's items when the category is "all",
else from exactly that category's items (empty when the key is
unknown); then apply each active filter in source order, the `noCheese`
filter keeping items without the "lait" allergen tag or with
`cheeseRemovable === true`. -/
def visibleItems (menu : Menu) (category : String) (f : FilterSet) :
    List MenuItem :=
  let items := if category = "all" then (menu.map Prod.snd).flatten
               else (menu.lookup category).getD []
  let items := if f.vegetarian then items.filter (fun i => i.vegetarian) else items
  let items := if f.vegan then items.filter (fun i => i.vegan) else items
  let items := if f.halal then items.filter (fun i => i.halal) else items
  let items := if f.popular then items.filter (fun i => i.popular) else items
  let items := if f.noAllergens then items.filter (fun i => i.allergens.isEmpty) else items
  let items := if f.noCheese then
      items.filter (fun i => !(i.allergens.contains "lait") || (i.cheeseRemovable == some true))
    else items
  items

/-- The parsed body of a successful Whisper API call (the
`WhisperResponse` interface of src/pages/api/transcribe.ts, segments
omitted as the handler never reads them). -/
structure WhisperResponse where
  text : String
  language : Option String := none
  confidence : Option Rat := none

/-- The outcome of the upstream Whisper call as seen by the handler:
either a non-ok HTTP response with its status and body text, or a
decoded transcription. -/
inductive WhisperOutcome where
  | httpErr (status : Nat) (body : String)
  | ok (w : WhisperResponse)

/-- A reply sent by the transcription endpoint after the upstream call:
an error body `\x7berror, details\x7d` with its HTTP status, or the 200
success body `\x7btext, language?, confidence?\x7d`. -/
inductive TranscribeReply where
  | failure (status : Nat) (error : String) (details : String)
  | success (text : String) (language : Option String) (confidence : Option Rat)
deriving DecidableEq

/-- JavaScript `a || b` on an optional string: a present nonempty
string wins, otherwise the fallback. -/
def jsOrStr (a b : Option String) : Option String :=
  match a with
  | some s => if s != "" then some s else b
  | none => b

/-- `transcription.confidence || undefined`: a present nonzero value is
kept, zero or absence becomes `undefined`. -/
def jsOrConf (c : Option Rat) : Option Rat :=
  match c with
  | some r => if r ≠ 0 then some r else none
  | none => none

/-- The transcription handler's behavior after the upstream Whisper
call (src/pages/api/transcribe.ts): a non-ok upstream response is
surfaced with the upstream status; an empty or whitespace-only
transcription text is the distinct 400 "no speech detected" error; a
nonempty text is returned trimmed with status 200. -/
def transcribeHandler (browserLang : Option String) :
    WhisperOutcome → TranscribeReply
  | .httpErr status body =>
      .failure status "Erreur lors de la transcription"
        ("API Whisper: " ++ toString status ++ " - " ++ body)
  | .ok w =>
      if jsTrim w.text = "" then
        .failure 400 "Aucun texte détecté"
          "L\x27audio ne contient pas de parole identifiable"
      else
        .success (jsTrim w.text) (jsOrStr w.language browserLang)
          (jsOrConf w.confidence)

/-! ### Concrete inputs used by witnesses and counterexamples -/

/-- A pizza with a dairy allergen tag that can be made without cheese. -/
def margherita : MenuItem :=
  { id := 1, name := "Pizza Margherita", price := 9, image := "", description := ""
    ingredients := ["tomate", "mozzarella"], allergens := ["gluten", "lait"], tags := []
    vegetarian := true, vegan := false, halal := true, popular := true, spicy := false
    preparationTime := "15 min", cheeseRemovable := some true }

/-- A pizza with a dairy allergen tag and no cheese-removal option. -/
def regina : MenuItem :=
  { id := 2, name := "Pizza Regina", price := 11, image := "", description := ""
    ingredients := ["tomate", "jambon", "mozzarella"], allergens := ["gluten", "lait"], tags := []
    vegetarian := false, vegan := false, halal := false, popular := false, spicy := false
    preparationTime := "15 min", cheeseRemovable := none }

/-- A pasta dish with no dairy allergen tag. -/
def arrabbiata : MenuItem :=
  { id := 3, name := "Penne Arrabbiata", price := 10, image := "", description := ""
    ingredients := ["penne", "tomate", "piment"], allergens := ["gluten"], tags := []
    vegetarian := true, vegan := true, halal := true, popular := false, spicy := true
    preparationTime := "12 min", cheeseRemovable := none }

/-- A two-category demo catalog. -/
def demoMenu : Menu := [("pizzas", [margherita, regina]), ("pates", [arrabbiata])]

/-- A session whose prior filters have `vegan = true`. -/
def cexPriorVegan : UIState :=
  ⟨"all", { allFalseFilters with vegan := true }⟩

/-- The action `\x7bfilters: \x7bpopular: true\x7d\x7d`. -/
def actPopularOnly : ClientActions := { setFilters := some { popular := some true } }

/-- A session on category "pizzas" with `vegan = true`. -/
def cexState : UIState := ⟨"pizzas", { allFalseFilters with vegan := true }⟩

/-- An action asserting only the custom filter `withCheese`. -/
def cexWithCheese : ClientActions := { customFilters := some { withCheese := some true } }

/-- A session on category "pizzas" with no active filter. -/
def cexCatState : UIState := ⟨"pizzas", allFalseFilters⟩

/-- An action whose category field is present but holds the empty string. -/
def cexEmptyCat : ClientActions := { filterCategory := some "" }

/-- The `noCheese`-only filter set. -/
def noCheeseOnly : FilterSet := { allFalseFilters with noCheese := true }

/-! ### C1: reset-then-merge for the filters field -/

/-- Claim C1: when the action's filters field is present, the resulting
FilterSet is the all-false baseline overlaid with exactly the keys
present in the update — keys absent from the update end up false no
matter what the pre-reconciliation FilterSet held. -/
theorem setFilters_resets_then_merges (s : UIState) (a : ClientActions)
    (u : FilterUpdate) (h : a.setFilters = some u) :
    (executeAIActions s a).activeFilters = mergeFilters allFalseFilters u := by
  obtain ⟨fc, sf, cf, ri, si⟩ := a
  simp only at h
  subst h
  simp only [executeAIActions]
  cases fc <;> cases cf <;>
    simp only [] <;>
    split <;> rfl

/-- Witness for C1 at the spec's example: filters `\x7bpopular: true\x7d`
against prior `vegan = true` yields `popular = true` and `vegan = false`. -/
theorem setFilters_resets_then_merges_app :
    (executeAIActions cexPriorVegan actPopularOnly).activeFilters =
      mergeFilters allFalseFilters { popular := some true } ∧
    (executeAIActions cexPriorVegan actPopularOnly).activeFilters.popular = true ∧
    (executeAIActions cexPriorVegan actPopularOnly).activeFilters.vegan = false :=
  ⟨setFilters_resets_then_merges cexPriorVegan actPopularOnly { popular := some true } rfl,
   rfl, rfl⟩

/-! ### C3: the withCheese custom filter -/

/-- Counterexample to claim C3: asserting `withCheese` does not leave
the FilterSet untouched — a prior `vegan = true` is cleared to false by
the reconciler's explicit reset in the `withCheese` branch. -/
theorem withCheese_clears_filters_cex :
    cexState.activeFilters.vegan = true ∧
    (executeAIActions cexState cexWithCheese).activeFilters.vegan = false ∧
    (executeAIActions cexState cexWithCheese).currentCategory = "all" :=
  ⟨rfl, rfl, rfl⟩

/-- Amended C3: when `withCheese` is asserted (and no filters field is
present), the reconciler forces category "all" and resets the FilterSet
to all-false; custom filter payloads not asserting `withCheese` alter
no visible state at all. -/
theorem withCheese_forces_all_and_resets (s : UIState) (a : ClientActions)
    (cf : CustomFilters) (hcf : a.customFilters = some cf) :
    (cf.withCheese = some true → a.setFilters = none →
      executeAIActions s a = ⟨"all", allFalseFilters⟩) ∧
    (cf.withCheese ≠ some true → a.setFilters = none → a.filterCategory = none →
      executeAIActions s a = s) := by
  obtain ⟨fc, sf, cfa, ri, si⟩ := a
  simp only at hcf
  subst hcf
  constructor
  · intro hwc hsf
    simp only at hsf
    subst hsf
    cases fc <;>
      simp only [executeAIActions, hwc, beq_self_eq_true, if_true]
  · intro hwc hsf hfc
    simp only at hsf hfc
    subst hsf; subst hfc
    have hb : (cf.withCheese == some true) = false := by
      simp [beq_eq_false_iff_ne, hwc]
    simp [executeAIActions, hb]

/-- Witness for amended C3: `withCheese` on a vegan-filtered session
resets filters and forces "all"; a `spicy`-only custom payload changes
nothing. -/
theorem withCheese_forces_all_and_resets_app :
    executeAIActions cexState cexWithCheese = ⟨"all", allFalseFilters⟩ ∧
    executeAIActions cexState { customFilters := some { spicy := some true } } = cexState :=
  ⟨(withCheese_forces_all_and_resets cexState cexWithCheese
      { withCheese := some true } rfl).1 rfl rfl,
   (withCheese_forces_all_and_resets cexState
      { customFilters := some { spicy := some true } }
      { spicy := some true } rfl).2 (by decide) rfl rfl⟩

/-! ### C8: category applied verbatim, soft failure downstream -/

/-- Counterexample to claim C8: a present but empty category string is
not applied — the JavaScript truthiness guard `if
(actions.filterCategory)` treats the empty string as absent, so the
category is not set "for every category string present". -/
theorem empty_category_not_applied_cex :
    cexEmptyCat.filterCategory = some "" ∧
    (executeAIActions cexCatState cexEmptyCat).currentCategory = "pizzas" ∧
    ("pizzas" : String) ≠ "" :=
  ⟨rfl, rfl, by decide⟩

/-- Amended C8: for every nonempty category string present in an action
whose custom filters do not assert `withCheese` (which would override
the category to "all"), the reconciler sets the session category to it
verbatim with no validation against the catalog keys; a key unknown to
the catalog then yields the empty visible sequence rather than an
error. -/
theorem category_verbatim_no_validation :
    (∀ (s : UIState) (a : ClientActions) (c : String),
      a.filterCategory = some c → c ≠ "" →
      (∀ cf, a.customFilters = some cf → cf.withCheese ≠ some true) →
      (executeAIActions s a).currentCategory = c) ∧
    (∀ (menu : Menu) (c : String) (f : FilterSet),
      c ≠ "all" → menu.lookup c = none → visibleItems menu c f = []) := by
  constructor
  · intro s a c hfc hc hcf
    obtain ⟨fc, sf, cfa, ri, si⟩ := a
    simp only at hfc hcf
    subst hfc
    have hb : (c != "") = true := by simpa using hc
    cases cfa with
    | none =>
      cases sf <;> simp [executeAIActions, hb]
    | some cf =>
      have hw : (cf.withCheese == some true) = false := by
        simpa [beq_eq_false_iff_ne] using hcf cf rfl
      cases sf <;> simp [executeAIActions, hb, hw]
  · intro menu c f hc hl
    simp [visibleItems, hc, hl]

/-- Witness for amended C8: the unknown key "burgers" is set verbatim
and yields zero visible items on the demo catalog. -/
theorem category_verbatim_no_validation_app :
    (executeAIActions cexCatState { filterCategory := some "burgers" }).currentCategory
      = "burgers" ∧
    visibleItems demoMenu "burgers" allFalseFilters = [] :=
  ⟨category_verbatim_no_validation.1 cexCatState { filterCategory := some "burgers" }
     "burgers" rfl (by decide) (fun cf h => Option.noConfusion h),
   category_verbatim_no_validation.2 demoMenu "burgers" allFalseFilters
     (by decide) rfl⟩

/-! ### C6: the noCheese predicate -/

/-- Claim C6: with `noCheese = true`, `visibleItems` keeps exactly the
items that either lack the "lait" allergen tag or have
`cheeseRemovable = true`; the stage is the final filter applied on top
of the same pipeline with `noCheese` off. -/
theorem noCheese_keeps_removable_or_dairy_free (menu : Menu) (c : String)
    (f : FilterSet) (h : f.noCheese = true) :
    visibleItems menu c f =
      (visibleItems menu c { f with noCheese := false }).filter
        (fun i => !(i.allergens.contains "lait") || (i.cheeseRemovable == some true)) := by
  obtain ⟨v, vg, hl, na, po, nc⟩ := f
  cases nc with
  | false => exact Bool.noConfusion h
  | true => rfl

/-- Witness for C6 on the demo catalog: the dairy-tagged but removable
margherita is kept, the dairy-tagged non-removable regina is excluded,
the dairy-free arrabbiata is kept. -/
theorem noCheese_keeps_removable_or_dairy_free_app :
    visibleItems demoMenu "all" noCheeseOnly =
      (visibleItems demoMenu "all" { noCheeseOnly with noCheese := false }).filter
        (fun i => !(i.allergens.contains "lait") || (i.cheeseRemovable == some true)) ∧
    visibleItems demoMenu "all" noCheeseOnly = [margherita, arrabbiata] :=
  ⟨noCheese_keeps_removable_or_dairy_free demoMenu "all" noCheeseOnly rfl, rfl⟩

/-! ### C7: the unfiltered "all" category preserves the catalog -/

/-- Claim C7: with category "all" and every flag false, `visibleItems`
returns the concatenation of the categories' item sequences in catalog
iteration order — every item of the catalog exactly once, order
preserved. -/
theorem visibleItems_all_unfiltered (menu : Menu) :
    visibleItems menu "all" allFalseFilters = (menu.map Prod.snd).flatten := rfl

/-! ### Concrete raw model responses -/

/-- The spec's unbalanced input: a first opening brace with no closing
brace anywhere. -/
def rawOops : String := "\x7b\"response\": \"oops"

/-- A fenced non-JSON response, on which cleaning changes the text and
decoding still fails. -/
def rawFenced : String := "```json\nnot json \x7b oops\n```"

/-- The spec's prose-wrapped example response. -/
def rawProse : String :=
  "Here you go: \x7b\"response\":\"ok\",\"actions\":\x7b\"category\":\"pizzas\"\x7d\x7d Enjoy!"

/-- A raw response that is a top-level JSON string containing an opening
brace: it has a first opening brace and no closing brace, yet decodes
successfully. -/
def rawQuotedBrace : String := "\"\x7b\""

/-- A decodable response whose `response` field is missing. -/
def rawNoResponse : String := "\x7b\"actions\":\x7b\"category\":\"pizzas\"\x7d\x7d"

/-- A decodable response carrying no actions at all. -/
def rawTextOnly : String := "\x7b\"response\":\"hi\"\x7d"

/-- A decodable response whose actions object carries a `showItems`
key alongside a category. -/
def rawShowItems : String :=
  "\x7b\"response\":\"hi\",\"actions\":\x7b\"category\":\"pizzas\",\"showItems\":[1,2]\x7d\x7d"

/-- The JSON value `rawNoResponse` decodes to. -/
def parsedNoResponse : Json :=
  Json.obj [("actions", Json.obj [("category", Json.str "pizzas")])]

/-- The JSON value `rawTextOnly` decodes to. -/
def parsedTextOnly : Json := Json.obj [("response", Json.str "hi")]

/-! ### C2: decode failure falls back to the raw text -/

/-- Claim C2: on every raw model response whose structural decode fails,
the chat handler does not propagate the failure — it returns the
fallback body whose `response` is the entire original raw text (not the
cleaned or sliced text) and whose `actions` is absent. -/
theorem chatHandler_decode_failure_fallback (raw : String)
    (h : jsonParse (cleanResponse raw) = none) :
    chatHandler raw = .ok { response := some (Json.str raw), actions := none } := by
  simp only [chatHandler, h]

/-- Witness for C2: the spec's unbalanced input takes the fallback with
the full original text, and so does a fenced non-JSON response even
though cleaning changed the text that was decoded. -/
theorem chatHandler_decode_failure_fallback_app :
    jsonParse (cleanResponse rawOops) = none ∧
    chatHandler rawOops = .ok { response := some (Json.str rawOops), actions := none } ∧
    cleanResponse rawFenced ≠ rawFenced ∧
    chatHandler rawFenced = .ok { response := some (Json.str rawFenced), actions := none } :=
  ⟨rfl,
   chatHandler_decode_failure_fallback rawOops rfl,
   by decide,
   chatHandler_decode_failure_fallback rawFenced rfl⟩

/-! ### C4: missing or malformed response field -/

/-- Helper: a JSON object value is not the JSON null value. -/
theorem obj_ne_null (fs : List (String × Json)) : Json.obj fs ≠ Json.null := by
  intro h
  exact Json.noConfusion h

/-- Helper: `isNull` is false exactly on non-null values. -/
theorem isNull_false_of_ne (parsed : Json) (hn : parsed ≠ Json.null) :
    parsed.isNull = false := by
  cases parsed with
  | null => exact absurd rfl hn
  | bool b => rfl
  | num s => rfl
  | str s => rfl
  | arr es => rfl
  | obj fs => rfl

/-- Counterexample to claim C4: on a decode success whose `response`
field is missing, the handler does not take the fallback path — on the
object input the 200 body has no `response` text at all (rather than
the original raw text) and still carries the extracted actions, and on
the decoded value `null` (which has no `response` field either) the
handler returns a 500 error instead of any fallback body. -/
theorem missing_response_not_fallback_cex :
    chatHandler rawNoResponse =
      .ok { response := none,
            actions := some { filterCategory := some (Json.str "pizzas") } } ∧
    chatHandler rawNoResponse ≠
      .ok { response := some (Json.str rawNoResponse), actions := none } ∧
    chatHandler "null" = .serverError "Erreur interne du serveur" := by
  refine ⟨rfl, ?_, rfl⟩
  intro h
  rw [show chatHandler rawNoResponse =
    .ok { response := none,
          actions := some { filterCategory := some (Json.str "pizzas") } } from rfl] at h
  injection h with hb
  exact Option.noConfusion (congrArg ChatResult.response hb)

/-- Amended C4: on decode success the handler never takes the raw-text
fallback.  For a non-null decoded value it performs no validation of
the `response` field — the 200 body forwards `parsedResponse.response`
verbatim (absent when the field is missing, whatever value it holds
otherwise) and action extraction still proceeds; for the decoded value
`null`, the property access `parsedResponse.actions` (which sits
outside the parse try/catch) throws, and the outer catch returns the
500 internal error rather than any fallback body. -/
theorem chatHandler_success_forwards_response :
    (∀ (raw : String) (parsed : Json),
      jsonParse (cleanResponse raw) = some parsed → parsed ≠ Json.null →
      chatHandler raw =
        .ok { response := Json.getField parsed "response"
              actions := if isEmptyActs (buildActs parsed) then none
                         else some (buildActs parsed) }) ∧
    (∀ raw : String, jsonParse (cleanResponse raw) = some Json.null →
      chatHandler raw = .serverError "Erreur interne du serveur") := by
  constructor
  · intro raw parsed hp hn
    simp only [chatHandler, hp, isNull_false_of_ne parsed hn, Bool.false_eq_true,
      if_false]
    rfl
  · intro raw hp
    simp only [chatHandler, hp, Json.isNull, if_true]

/-- Witness for amended C4: the missing-`response` object input
forwards an absent `response` with actions extracted; the raw text
`null` decodes successfully and yields the 500 error. -/
theorem chatHandler_success_forwards_response_app :
    jsonParse (cleanResponse rawNoResponse) = some parsedNoResponse ∧
    chatHandler rawNoResponse =
      .ok { response := Json.getField parsedNoResponse "response"
            actions := if isEmptyActs (buildActs parsedNoResponse) then none
                       else some (buildActs parsedNoResponse) } ∧
    jsonParse (cleanResponse "null") = some Json.null ∧
    chatHandler "null" = .serverError "Erreur interne du serveur" :=
  ⟨rfl,
   chatHandler_success_forwards_response.1 rawNoResponse parsedNoResponse rfl
     (obj_ne_null _),
   rfl,
   chatHandler_success_forwards_response.2 "null" rfl⟩

/-! ### C5: brace-span extraction -/

/-- Counterexample to claim C5's final clause: the raw text `"\x7b"` is a
top-level JSON string whose cleaned form has a first opening brace and
no closing brace, so no slice occurs — yet the decode succeeds and the
fallback path is NOT taken (the result's `response` is not the raw
text). -/
theorem no_close_brace_not_always_fallback_cex :
    lbrace ∈ (cleanResponse rawQuotedBrace).toList ∧
    rbrace ∉ (cleanResponse rawQuotedBrace).toList ∧
    chatHandler rawQuotedBrace = .ok { response := none, actions := none } ∧
    chatHandler rawQuotedBrace ≠
      .ok { response := some (Json.str rawQuotedBrace), actions := none } := by
  refine ⟨by decide, by decide, rfl, ?_⟩
  intro h
  rw [show chatHandler rawQuotedBrace =
    .ok { response := none, actions := none } from rfl] at h
  injection h with hb
  exact Option.noConfusion (congrArg ChatResult.response hb)

/-- Helper: JavaScript `indexOf` returns no index for an absent
character. -/
theorem idxOfFrom_eq_none (c : Char) (l : List Char) (h : c ∉ l) :
    idxOfFrom c l = none := by
  induction l with
  | nil => rfl
  | cons x xs ih =>
    have hx : (x == c) = false := by
      simp only [beq_eq_false_iff_ne]
      intro he
      exact h (he ▸ List.mem_cons_self x xs)
    simp [idxOfFrom, hx, ih (fun hm => h (List.mem_cons_of_mem x hm))]

/-- Amended C5: the first-open/last-close slice is applied exactly when
both braces exist with the first before the last (demonstrated on the
spec's prose-wrapped example, which yields category "pizzas"); a text
with no closing brace is never sliced, and the fallback is then taken
exactly when decoding the unsliced text fails, as on the spec's
unbalanced example — not unconditionally. -/
theorem brace_span_extraction :
    (∀ t : String, rbrace ∉ t.toList → sliceBraces t = t) ∧
    cleanResponse rawProse =
      "\x7b\"response\":\"ok\",\"actions\":\x7b\"category\":\"pizzas\"\x7d\x7d" ∧
    chatHandler rawProse =
      .ok { response := some (Json.str "ok"),
            actions := some { filterCategory := some (Json.str "pizzas") } } ∧
    chatHandler rawOops = .ok { response := some (Json.str rawOops), actions := none } := by
  refine ⟨?_, rfl, rfl, rfl⟩
  intro t ht
  have h2 : idxOfFrom rbrace t.toList.reverse = none :=
    idxOfFrom_eq_none _ _ (fun hm => ht (List.mem_reverse.mp hm))
  simp only [sliceBraces, h2]
  cases idxOfFrom lbrace t.toList <;> rfl

/-- Witness for amended C5: a brace-free text is left unsliced. -/
theorem brace_span_extraction_app :
    sliceBraces "no braces here" = "no braces here" :=
  brace_span_extraction.1 "no braces here" (by decide)

/-! ### C9: transcription outcome taxonomy -/

/-- Claim C9: the transcription endpoint returns the upstream status
for a transport/upstream error, treats empty or whitespace-only
transcription text as the distinct 400 "no speech detected" condition,
and on success returns the (trimmed) transcribed text. -/
theorem transcribe_conditions (bl : Option String) :
    (∀ w : WhisperResponse, jsTrim w.text = "" →
      transcribeHandler bl (.ok w) =
        .failure 400 "Aucun texte détecté"
          "L\x27audio ne contient pas de parole identifiable") ∧
    (∀ (status : Nat) (body : String),
      transcribeHandler bl (.httpErr status body) =
        .failure status "Erreur lors de la transcription"
          ("API Whisper: " ++ toString status ++ " - " ++ body)) ∧
    (∀ (status : Nat) (d1 d2 : String),
      TranscribeReply.failure 400 "Aucun texte détecté" d1 ≠
        TranscribeReply.failure status "Erreur lors de la transcription" d2) ∧
    (∀ w : WhisperResponse, jsTrim w.text ≠ "" →
      transcribeHandler bl (.ok w) =
        .success (jsTrim w.text) (jsOrStr w.language bl) (jsOrConf w.confidence)) := by
  refine ⟨?_, fun status body => rfl, ?_, ?_⟩
  · intro w h
    simp [transcribeHandler, h]
  · intro status d1 d2 h
    injection h with h1 h2 h3
    exact absurd h2 (by decide)
  · intro w h
    simp [transcribeHandler, h]

/-- Witness for C9: whitespace-only text gives the distinct no-speech
error; an upstream 429 is surfaced with status 429; the two error
replies differ; a padded success text comes back trimmed. -/
theorem transcribe_conditions_app :
    transcribeHandler (some "fr") (.ok { text := "   " }) =
      .failure 400 "Aucun texte détecté"
        "L\x27audio ne contient pas de parole identifiable" ∧
    transcribeHandler (some "fr") (.httpErr 429 "rate limited") =
      .failure 429 "Erreur lors de la transcription"
        ("API Whisper: " ++ toString 429 ++ " - " ++ "rate limited") ∧
    TranscribeReply.failure 400 "Aucun texte détecté" "x" ≠
      TranscribeReply.failure 400 "Erreur lors de la transcription" "y" ∧
    transcribeHandler (some "fr") (.ok { text := " bonjour " }) =
      .success "bonjour" (jsOrStr none (some "fr")) (jsOrConf none) :=
  ⟨(transcribe_conditions (some "fr")).1 { text := "   " } rfl,
   (transcribe_conditions (some "fr")).2.1 429 "rate limited",
   (transcribe_conditions (some "fr")).2.2.1 400 "x" "y",
   (transcribe_conditions (some "fr")).2.2.2 { text := " bonjour " } (by decide)⟩

/-! ### C10: the forwarded actions shape -/

/-- Helper: the chat handler never assigns the `showItems` key. -/
theorem buildActs_showItems (parsed : Json) : (buildActs parsed).showItems = none := by
  unfold buildActs
  cases Json.getField parsed "actions" with
  | none => rfl
  | some av => cases htr : jsTruthy av <;> simp [htr]

/-- Claim C10: the chat handler copies only category (as
`filterCategory`), filters (as `setFilters`), `customFilters` and
`recommendedItems`; the forwarded actions never contain a `showItems`
key, so the reconciler's `showItems` branch is dead (and it alters no
state anyway); and when none of the copied fields is present the
`actions` field is absent rather than an empty object. -/
theorem chat_actions_never_showItems :
    (∀ raw body acts, chatHandler raw = .ok body → body.actions = some acts →
      acts.showItems = none) ∧
    (∀ raw parsed, jsonParse (cleanResponse raw) = some parsed →
      isEmptyActs (buildActs parsed) = true → parsed ≠ Json.null →
      chatHandler raw =
        .ok { response := Json.getField parsed "response", actions := none }) ∧
    (∀ (s : UIState) (a : ClientActions) (xs : Option (List Int)),
      executeAIActions s { a with showItems := xs } = executeAIActions s a) := by
  refine ⟨?_, ?_, ?_⟩
  · intro raw body acts hb ha
    simp only [chatHandler] at hb
    cases hp : jsonParse (cleanResponse raw) with
    | none =>
      simp only [hp] at hb
      injection hb with hbody
      rw [← hbody] at ha
      exact Option.noConfusion ha
    | some parsed =>
      simp only [hp] at hb
      by_cases hnull : parsed.isNull = true
      · rw [if_pos hnull] at hb
        exact ChatReply.noConfusion hb
      · rw [if_neg hnull] at hb
        injection hb with hbody
        rw [← hbody] at ha
        simp only [successBody] at ha
        by_cases he : isEmptyActs (buildActs parsed) = true
        · rw [if_pos he] at ha
          exact Option.noConfusion ha
        · rw [if_neg he] at ha
          cases ha
          exact buildActs_showItems parsed
  · intro raw parsed hp he hn
    simp only [chatHandler, hp, isNull_false_of_ne parsed hn, Bool.false_eq_true,
      if_false, successBody, he, if_true]
  · intro s a xs
    cases a
    rfl

/-- Witness for C10: a model response whose actions carry both a
category and a `showItems` list forwards only the category (no
`showItems` key); a response with no action fields gets no `actions`
object at all; and feeding `showItems` to the reconciler changes
nothing. -/
theorem chat_actions_never_showItems_app :
    chatHandler rawShowItems =
      .ok { response := some (Json.str "hi"),
            actions := some { filterCategory := some (Json.str "pizzas") } } ∧
    ({ filterCategory := some (Json.str "pizzas") } : ChatActionsOut).showItems = none ∧
    chatHandler rawTextOnly =
      .ok { response := some (Json.str "hi"), actions := none } ∧
    executeAIActions cexCatState { showItems := some [1, 2] } =
      executeAIActions cexCatState {} :=
  ⟨rfl,
   chat_actions_never_showItems.1 rawShowItems
     { response := some (Json.str "hi"),
       actions := some { filterCategory := some (Json.str "pizzas") } } _ rfl rfl,
   chat_actions_never_showItems.2.1 rawTextOnly parsedTextOnly rfl rfl (obj_ne_null _),
   chat_actions_never_showItems.2.2 cexCatState {} (some [1, 2])⟩
